import Mathlib

/-!
Shallow embedding of the display-panel backlight core
(`src/msm/dsi/dsi_backlight.c`, `src/msm/dsi/dsi_panel_switch.c`) and proofs
about it.

Modelling conventions:
* C unsigned values (`u8`, `u16`, `u32`) are `Nat`; narrowing conversions are
  explicit (`% 256`, `% 65536`, `% 2 ^ 32`).
* C `int` arithmetic is `Int`; where an `int` expression can overflow 32 bits
  the result is wrapped with `wrap32` (the kernel is compiled with
  `-fno-strict-overflow`, i.e. two-complement wraparound semantics).
* C truncating integer division on `int` is `Int.tdiv` (rounds toward zero).
* DSI transfers (`mipi_dsi_dcs_write`, `dsi_panel_cmd_set_transfer`) are
  external collaborators; they are modelled as always succeeding and are
  recorded as events, so theorems can talk about which writes were emitted.
* The `CONFIG_UCI` additions in this tree are inert at their compiled-in
  defaults (`backlight_dimmer = false`, listeners only mirror state), so the
  embedding models the common branch both configurations compute.
-/

/-- Wrap an integer to the range of a 32-bit two-complement `int`. -/
def wrap32 (z : ℤ) : ℤ := (z + 2 ^ 31) % 2 ^ 32 - 2 ^ 31

/-- Conversion of an `int` value to `u32` (assignment to an unsigned lvalue). -/
def toU32 (z : ℤ) : ℕ := (z % 2 ^ 32).toNat

/-- Truncation of a value stored into a `u8` (e.g. a DCS payload byte). -/
def toU8 (n : ℕ) : ℕ := n % 256

/-- Truncation of a wider value passed as a `u16` argument. -/
def toU16 (n : ℕ) : ℕ := n % 65536

/-- The kernel `DIV_ROUND_CLOSEST(x, divisor)` macro instantiated at signed
`int` operands: both type-based disjuncts of the sign test are false, so it
reduces to the `(__x > 0) == (__d > 0)` test, with truncating division and
32-bit wraparound on the intermediate sum. -/
def div_round_closest (x d : ℤ) : ℤ :=
  if (0 < x) = (0 < d) then Int.tdiv (wrap32 (x + Int.tdiv d 2)) d
  else Int.tdiv (wrap32 (x - Int.tdiv d 2)) d

/-- `dsi_backlight_lerp` (dsi_backlight.c:313-326). Arguments are `u16`; a
`-EINVAL` failure (modelled as `none`) leaves `*y` unset. The interpolation
branch computes `DIV_ROUND_CLOSEST((x - x1) * (y2 - y1), x2 - x1) + y1` in
`int` arithmetic (the `u16` operands promote to `int`; the product can wrap)
and stores the result into the `u32` output. -/
def dsi_backlight_lerp (x1 x2 y1 y2 x : ℕ) : Option ℕ :=
  if x2 < x1 ∨ y2 < y1 then none
  else if x2 - x1 = 0 ∨ x ≤ x1 then some y1
  else if x2 ≤ x then some y2
  else some (toU32 (div_round_closest
      (wrap32 (((x : ℤ) - (x1 : ℤ)) * ((y2 : ℤ) - (y1 : ℤ))))
      ((x2 : ℤ) - (x1 : ℤ)) + (y1 : ℤ)))

/-- The interpolation value as the specification words it: `y1` plus
`(x - x1) * (y2 - y1) / (x2 - x1)` rounded to the nearest integer
(`DIV_ROUND_CLOSEST` on nonnegative operands adds half the divisor before
dividing). Written from the words of the spec for comparison with
`dsi_backlight_lerp`. -/
def lerp_spec_value (x1 x2 y1 y2 x : ℕ) : ℕ :=
  y1 + ((x - x1) * (y2 - y1) + (x2 - x1) / 2) / (x2 - x1)

/-- Modelled from the spec: `MAX_BL_SCALE_LEVEL` is defined in `dsi_panel.h`,
which is not under `src/`; the spec only requires `bl_scale ∈ [0, MAX_BL_SCALE]`
applied as `x * scale / MAX`. The claims are symbolic in this constant. -/
def MAX_BL_SCALE_LEVEL : ℕ := 1024

/-- Modelled from the spec: `MAX_SV_BL_SCALE_LEVEL` from `dsi_panel.h` (not
under `src/`), the divisor of the second scale factor. -/
def MAX_SV_BL_SCALE_LEVEL : ℕ := 65535

/-- Modelled from the spec: `HBM_RANGE_MAX` from the backlight header (not
under `src/`); `num_ranges ∈ 1..=HBM_RANGE_MAX` and `cur_range =
HBM_RANGE_MAX` is the "none" sentinel. The claims do not depend on the exact
value. -/
def HBM_RANGE_MAX : ℕ := 4

/-- The kernel `mult_frac(x, numer, denom)` macro on the unsigned 32-bit
operands used by `dsi_backlight_calculate`: `quot = x / denom`,
`rem = x % denom`, result `quot * numer + (rem * numer) / denom`, every
product and the final sum truncated to `u32`. -/
def mult_frac (x n d : ℕ) : ℕ :=
  ((x / d) * n % 2 ^ 32 + ((x % d) * n % 2 ^ 32) / d) % 2 ^ 32

/-- The `props.state` bitset of the backlight device:
`BL_CORE_FBBLANK | BL_CORE_SUSPENDED | BL_STATE_LP | BL_STATE_LP2`, modelled
as one boolean per flag (the numeric bit positions live in headers outside
`src/` and never matter). -/
structure BLState where
  fbblank : Bool
  suspended : Bool
  lp : Bool
  lp2 : Bool
deriving DecidableEq, Repr

/-- `is_lp_mode` (dsi_backlight.c:244-247): state has `LP` or `LP2` set. -/
def is_lp_mode (s : BLState) : Bool := s.lp || s.lp2

/-- Modelled from the spec: `is_standby_mode` lives in the backlight header
(not under `src/`); per spec section 4.E it tests `FBBLANK | SUSPENDED`. -/
def is_standby_mode (s : BLState) : Bool := s.fbblank || s.suspended

/-- `is_on_mode` (dsi_backlight.c:249-252). -/
def is_on_mode (s : BLState) : Bool := !is_lp_mode s && !is_standby_mode s

/-- `panel->hbm_mode ∈ {HBM_MODE_OFF, HBM_MODE_ON, HBM_MODE_SV}`. -/
inductive HbmMode where
  | off : HbmMode
  | on : HbmMode
  | sv : HbmMode
deriving DecidableEq, Repr

/-- One `struct hbm_range`; `entry_cmd` and `dimming_stop_cmd` are command
sets whose transfer is recorded as an event, so only `num_dimming_frames` is
kept here. All numeric fields are `u32`. -/
structure HbmRange where
  user_bri_start : ℕ
  user_bri_end : ℕ
  panel_bri_start : ℕ
  panel_bri_end : ℕ
  num_dimming_frames : ℕ
deriving DecidableEq, Repr

/-- `struct hbm_data`, restricted to the fields the backlight math reads:
the parsed ranges (the C array holds `num_ranges` valid entries) and the
current range index (`HBM_RANGE_MAX` = none). The dimming counters are owned
by the asynchronous dimming worker and are not modelled. -/
structure HbmData where
  ranges : List HbmRange
  cur_range : ℕ
deriving DecidableEq, Repr

/-- Observable DSI/backend emissions of the backlight paths. -/
inductive DsiEvent where
  | dimmingStart : ℕ → DsiEvent
  | entryCmd : ℕ → DsiEvent
  | dcsBrightness : List ℕ → DsiEvent
  | lpBinCmd : ℕ → DsiEvent
deriving DecidableEq, Repr

/-- True when the event list contains a DCS `SET_DISPLAY_BRIGHTNESS` write. -/
def hasDcsWrite (evs : List DsiEvent) : Bool :=
  evs.any fun e => match e with
    | DsiEvent.dcsBrightness _ => true
    | _ => false

/-- One binned-LP mode node (`struct binned_lp_node`); the DSI command of a
node is identified by the node index in `mode_list`. -/
structure BinnedLpNode where
  bl_threshold : ℕ
deriving DecidableEq, Repr

/-- `struct binned_lp_data`: the (threshold-sorted) mode list and the
remembered previously-applied bin, as an index into the list. -/
structure BinnedLpData where
  modes : List BinnedLpNode
  last_lp_mode : Option ℕ
deriving DecidableEq, Repr

/-- ALS notifier data (`struct bl_notifier_data`): threshold list and the
current range index. -/
structure NotifierData where
  ranges : List ℕ
  cur_range : ℕ
deriving DecidableEq, Repr

/-- `struct dsi_backlight_config`, restricted to the fields the modelled
paths read or write. -/
structure BLConfig where
  bl_min_level : ℕ
  bl_max_level : ℕ
  brightness_max_level : ℕ
  bl_scale : ℕ
  bl_scale_sv : ℕ
  lut : Option (List ℕ)
  bl_actual : ℕ
  high_byte_offset : ℕ
  hbm : Option HbmData
  bl_notifier : Option NotifierData
  allow_bl_update : Bool
  bl_update_pending : Bool
  last_state : BLState
deriving DecidableEq, Repr

/-- The backlight device properties read by `update_status`: the requested
brightness (`int`), whether `props.power == FB_BLANK_UNBLANK`, and the state
bitset. -/
structure BLProps where
  brightness : ℤ
  powerUnblank : Bool
  state : BLState
deriving DecidableEq, Repr

/-- The three `update_bl` bindings that occur in this driver: unset,
`dsi_backlight_update_dcs` (DCS type), and `dsi_panel_binned_bl_update`
(binned-LP registration, carrying its private data). The PWM backend is an
external collaborator and is not needed by any claim. -/
inductive BlMethod where
  | unset : BlMethod
  | dcs : BlMethod
  | binned : BinnedLpData → BlMethod
deriving DecidableEq, Repr

/-- Everything `dsi_backlight_update_status` reads and writes. -/
structure BLDevice where
  cfg : BLConfig
  props : BLProps
  hbm_mode : HbmMode
  initialized : Bool
  method : BlMethod
deriving DecidableEq, Repr

/-- `dsi_backlight_update_dcs` (dsi_backlight.c:271-308): rejects levels
above `0xffff` with `-EINVAL`, aborts (successfully) when the level equals
`bl_actual`, and otherwise emits a one- or two-byte DCS 0x51 payload chosen
by `bl_max_level >= BIT(high_byte_offset)`. Payload bytes are `u8`, so each
stored byte is truncated mod 256; the transfer itself is modelled as
succeeding. The function does not update `bl_actual`. -/
def dsi_backlight_update_dcs (cfg : BLConfig) (bl_lvl : ℕ) :
    ℤ × Option (List ℕ) :=
  if 65535 < bl_lvl then (-22, none)
  else if bl_lvl = cfg.bl_actual then (0, none)
  else if 2 ^ cfg.high_byte_offset ≤ cfg.bl_max_level then
    (0, some [toU8 (bl_lvl >>> cfg.high_byte_offset),
              toU8 ((2 ^ cfg.high_byte_offset - 1) &&& bl_lvl)])
  else (0, some [toU8 bl_lvl])

/-- The scan loop of `dsi_backlight_hbm_find_range`, carrying the running
index. -/
def find_range_loop : List HbmRange → ℕ → ℕ → Option ℕ
  | [], _, _ => none
  | r :: rest, b, i =>
      if b ≤ r.user_bri_end then some i else find_range_loop rest b (i + 1)

/-- `dsi_backlight_hbm_find_range` (dsi_backlight.c:534-550): first index
whose `user_bri_end` is at least the brightness, else `-EINVAL` (`none`). -/
def dsi_backlight_hbm_find_range (hbm : HbmData) (brightness : ℕ) : Option ℕ :=
  find_range_loop hbm.ranges brightness 0

/-- `dsi_backlight_calculate_hbm` (dsi_backlight.c:552-615). Brightness 0
uses range 0 without scanning; an unmatched brightness keeps `bl_actual`.
A range change starts dimming (when the range has dimming frames) and emits
the range entry command (via the `update_hbm` hook or the parsed command set;
both are one emission here), then the within-range interpolation runs with
all five arguments truncated to `u16` at the call; on interpolation failure
the returned level stays 0. -/
def dsi_backlight_calculate_hbm (hbm : HbmData) (bl_actual : ℕ)
    (brightness : ℕ) : HbmData × List DsiEvent × ℕ :=
  let target? : Option ℕ :=
    if brightness ≠ 0 then dsi_backlight_hbm_find_range hbm brightness
    else some 0
  match target? with
  | none => (hbm, [], bl_actual)
  | some target =>
    let range := hbm.ranges.getD target ⟨0, 0, 0, 0, 0⟩
    let hbm1 := if hbm.cur_range ≠ target then { hbm with cur_range := target }
                else hbm
    let evs := if hbm.cur_range ≠ target then
        (if range.num_dimming_frames ≠ 0 then
          [DsiEvent.dimmingStart range.num_dimming_frames] else [])
        ++ [DsiEvent.entryCmd target]
      else []
    let lvl := (dsi_backlight_lerp (toU16 range.user_bri_start)
        (toU16 range.user_bri_end) (toU16 range.panel_bri_start)
        (toU16 range.panel_bri_end) (toU16 brightness)).getD 0
    (hbm1, evs, lvl)

/-- `dsi_backlight_calculate_normal` (dsi_backlight.c:328-360): LUT lookup
when a LUT exists (clamped to the last entry with a WARN when over range),
otherwise linear interpolation from `[1, brightness_max_level]` to
`[bl_min_level ?: 1, bl_max_level]` with `u16` argument truncation; on
interpolation failure the level stays 0. -/
def dsi_backlight_calculate_normal (cfg : BLConfig) (brightness : ℕ) : ℕ :=
  match cfg.lut with
  | some lut =>
      if cfg.brightness_max_level < brightness then
        lut.getD cfg.brightness_max_level 0
      else lut.getD brightness 0
  | none =>
      (dsi_backlight_lerp (toU16 1) (toU16 cfg.brightness_max_level)
        (toU16 (if cfg.bl_min_level = 0 then 1 else cfg.bl_min_level))
        (toU16 cfg.bl_max_level) (toU16 brightness)).getD 0

/-- `dsi_backlight_calculate` (dsi_backlight.c:617-644): 0 for a
non-positive request, otherwise scale by `bl_scale` then `bl_scale_sv` with
`mult_frac` and dispatch on `panel->hbm_mode != HBM_MODE_OFF`. A null
`bl->hbm` while HBM is on cannot occur in a registered panel (HBM mode is
only settable when HBM data exists); it is modelled as the keep-`bl_actual`
outcome of the failed range scan. -/
def dsi_backlight_calculate (cfg : BLConfig) (hbm_mode : HbmMode)
    (brightness : ℤ) : BLConfig × List DsiEvent × ℕ :=
  if brightness ≤ 0 then (cfg, [], 0)
  else
    let t1 := mult_frac brightness.toNat cfg.bl_scale MAX_BL_SCALE_LEVEL
    let t2 := mult_frac t1 cfg.bl_scale_sv MAX_SV_BL_SCALE_LEVEL
    if hbm_mode ≠ HbmMode.off then
      match cfg.hbm with
      | some h =>
          let r := dsi_backlight_calculate_hbm h cfg.bl_actual t2
          ({ cfg with hbm := some r.1 }, r.2.1, r.2.2)
      | none => (cfg, [], cfg.bl_actual)
    else (cfg, [], dsi_backlight_calculate_normal cfg t2)

/-- The scan loop of `dsi_panel_binned_bl_update`: first node whose
threshold is at least `props.brightness` (the `int` brightness converts to
`u32` for the comparison against the `u32` threshold). -/
def binned_find_loop : List BinnedLpNode → ℕ → ℕ → Option ℕ
  | [], _, _ => none
  | n :: rest, b, i =>
      if b ≤ n.bl_threshold then some i else binned_find_loop rest b (i + 1)

/-- `dsi_panel_binned_bl_update` (dsi_backlight.c:1265-1305). While the
state includes LP the matching bin is selected; when the bin changed its
command is emitted (plus the TE2 update, which has no modelled state);
when the bin becomes none, `bl_actual` is invalidated to `(u32)-1`. The DCS
brightness write runs only when no bin is active. -/
def dsi_panel_binned_bl_update (cfg : BLConfig) (lp : BinnedLpData)
    (state : BLState) (brightness : ℤ) (bl_lvl : ℕ) :
    BLConfig × BinnedLpData × List DsiEvent × ℤ :=
  let node : Option ℕ :=
    if is_lp_mode state then binned_find_loop lp.modes (toU32 brightness) 0
    else none
  let step :=
    if node ≠ lp.last_lp_mode then
      match node with
      | some i => (cfg, { lp with last_lp_mode := node }, [DsiEvent.lpBinCmd i])
      | none => ({ cfg with bl_actual := 2 ^ 32 - 1 },
                 { lp with last_lp_mode := none }, ([] : List DsiEvent))
    else (cfg, lp, [])
  match node with
  | some _ => (step.1, step.2.1, step.2.2, 0)
  | none =>
      let w := dsi_backlight_update_dcs step.1 bl_lvl
      (step.1, step.2.1,
       step.2.2 ++ (w.2.map DsiEvent.dcsBrightness).toList, w.1)

/-- Dispatch of `bl->update_bl` as bound by registration: `DCS` panels use
`dsi_backlight_update_dcs`, binned-LP panels use
`dsi_panel_binned_bl_update`. -/
def bl_update_bl (cfg : BLConfig) (m : BlMethod) (state : BLState)
    (brightness : ℤ) (bl_lvl : ℕ) : BLConfig × BlMethod × List DsiEvent × ℤ :=
  match m with
  | BlMethod.unset => (cfg, m, [], 0)
  | BlMethod.dcs =>
      let w := dsi_backlight_update_dcs cfg bl_lvl
      (cfg, m, (w.2.map DsiEvent.dcsBrightness).toList, w.1)
  | BlMethod.binned lp =>
      let r := dsi_panel_binned_bl_update cfg lp state brightness bl_lvl
      (r.1, BlMethod.binned r.2.1, r.2.2.1, r.2.2.2)

/-- The scan loop of `dsi_panel_bl_find_range` over the ALS notifier
thresholds. -/
def bl_notifier_find_loop : List ℕ → ℕ → ℕ → Option ℕ
  | [], _, _ => none
  | t :: rest, b, i =>
      if b ≤ t then some i else bl_notifier_find_loop rest b (i + 1)

/-- The ALS-notifier update inside the successful-write branch of
`update_status` (dsi_backlight.c:684-697): on an on-mode state with HBM off,
move the notifier to the range holding the requested brightness (the sysfs
notification itself is an external observer). -/
def bl_notifier_step (cfg : BLConfig) (state : BLState) (hm : HbmMode)
    (brightness : ℤ) : BLConfig :=
  if cfg.bl_notifier.isSome && is_on_mode state
      && (hm = HbmMode.off : Bool) then
    match cfg.bl_notifier with
    | some nf =>
        match bl_notifier_find_loop nf.ranges (toU32 brightness) 0 with
        | some t =>
            if nf.cur_range ≠ t then
              { cfg with bl_notifier := some { nf with cur_range := t } }
            else cfg
        | none => cfg
    | none => cfg
  else cfg

/-- The brightness `update_status` actually uses: forced to zero when the
state has `FBBLANK` or `SUSPENDED` or the power is not `FB_BLANK_UNBLANK`
(dsi_backlight.c:658-660). -/
def effective_brightness (p : BLProps) : ℤ :=
  if p.state.fbblank || p.state.suspended || !p.powerUnblank then 0
  else p.brightness

/-- `dsi_backlight_update_status` (dsi_backlight.c:646-723). Stale value and
state exit before any write; a gated update only marks `bl_update_pending`;
otherwise the dimming counter restart (owned by the dimming worker, no
modelled state) runs and, for an initialized panel with a bound writer, the
writer is invoked — on writer failure `bl_actual`/`last_state` keep their
old values, on success `bl_update_pending` clears and the ALS notifier range
may move; finally `bl_actual`/`last_state` take the computed values. The
sysfs/connector notifications are external observers with no modelled
state. -/
def dsi_backlight_update_status (d : BLDevice) : BLDevice × List DsiEvent :=
  let brightness := effective_brightness d.props
  let c := dsi_backlight_calculate d.cfg d.hbm_mode brightness
  let cfg1 := c.1
  let cevs := c.2.1
  let bl_lvl := c.2.2
  if bl_lvl = cfg1.bl_actual ∧ d.cfg.last_state = d.props.state then
    ({ d with cfg := cfg1 }, cevs)
  else if !cfg1.allow_bl_update then
    ({ d with cfg := { cfg1 with bl_update_pending := true } }, cevs)
  else if d.initialized && !(d.method = BlMethod.unset) then
    let w := bl_update_bl cfg1 d.method d.props.state d.props.brightness bl_lvl
    let cfg2 := w.1
    if w.2.2.2 ≠ 0 then
      ({ d with cfg := cfg2, method := w.2.1 }, cevs ++ w.2.2.1)
    else
      let cfg4 := bl_notifier_step { cfg2 with bl_update_pending := false }
        d.props.state d.hbm_mode brightness
      ({ d with
          cfg := { cfg4 with bl_actual := bl_lvl, last_state := d.props.state },
          method := w.2.1 }, cevs ++ w.2.2.1)
  else
    ({ d with
        cfg := { cfg1 with bl_actual := bl_lvl, last_state := d.props.state } },
     cevs)

/-- The four DPMS requests handled by `get_state_after_dpms`; any other
power mode leaves the state unchanged. -/
inductive DpmsMode where
  | on : DpmsMode
  | off : DpmsMode
  | lp1 : DpmsMode
  | lp2 : DpmsMode
deriving DecidableEq, Repr

/-- `get_state_after_dpms` (dsi_backlight.c:1097-1121). -/
def get_state_after_dpms (s : BLState) (m : DpmsMode) : BLState :=
  match m with
  | DpmsMode.on => { s with fbblank := false, lp := false, lp2 := false }
  | DpmsMode.off => { s with fbblank := true, lp := false, lp2 := false }
  | DpmsMode.lp1 => { s with lp := true, lp2 := false }
  | DpmsMode.lp2 => { s with lp := true, lp2 := true }

/-- The device-tree properties one `google,hbm-ranges` child node can carry
(each `Option` is `none` when the property is absent; a command-set parse
leaves the count 0 when the property is absent, as
`dsi_panel_parse_dt_cmd_set` fails without touching the zeroed set). The
optional entry command cannot fail the parse and needs no field. -/
structure HbmNodeDT where
  threshold : Option ℕ
  bl_min : Option ℕ
  bl_max : Option ℕ
  num_dimming_frames : Option ℕ
  dimming_stop_cmd_count : ℕ
deriving DecidableEq, Repr

/-- `dsi_panel_bl_parse_hbm_node` (dsi_backlight.c:1482-1549), returning the
`rc` and the range as filled in so far (the containing array is `kzalloc`ed,
so unset fields read 0). Two checks print an error but then execute
`return rc` while `rc` holds the 0 of the preceding successful property
read, so they return success: the threshold-above-maximum check
(lines 1495-1498) and the panel max-below-min check (lines 1515-1518). -/
def dsi_panel_bl_parse_hbm_node (brightness_max_level : ℕ) (np : HbmNodeDT) :
    ℤ × HbmRange :=
  let r0 : HbmRange := ⟨0, 0, 0, 0, 0⟩
  match np.threshold with
  | none => (-22, r0)
  | some t =>
    if brightness_max_level < t then (0, r0)
    else
      let r1 := { r0 with user_bri_start := t }
      match np.bl_min with
      | none => (-22, r1)
      | some mn =>
        let r2 := { r1 with panel_bri_start := mn }
        match np.bl_max with
        | none => (-22, r2)
        | some mx =>
          if mx < mn then (0, r2)
          else
            let r3 := { r2 with panel_bri_end := mx }
            let frames := np.num_dimming_frames.getD 0
            let r4 := { r3 with num_dimming_frames := frames }
            if (np.dimming_stop_cmd_count ≠ 0 ∧ frames = 0) ∨
               (np.dimming_stop_cmd_count = 0 ∧ frames ≠ 0) then (-22, r4)
            else (0, r4)

/-- The `for_each_child_of_node` loop over the range nodes
(dsi_backlight.c:1864-1873): stops at the first failing node. -/
def parse_hbm_nodes (brightness_max_level : ℕ) :
    List HbmNodeDT → ℤ × List HbmRange
  | [] => (0, [])
  | np :: rest =>
      let r := dsi_panel_bl_parse_hbm_node brightness_max_level np
      if r.1 ≠ 0 then (r.1, [])
      else
        let rr := parse_hbm_nodes brightness_max_level rest
        if rr.1 ≠ 0 then (rr.1, []) else (0, r.2 :: rr.2)

/-- The sortedness check and `user_bri_end` fill of
`dsi_panel_bl_parse_hbm` (dsi_backlight.c:1875-1890 and 1907): adjacent
`user_bri_start` values must be strictly increasing; each range ends one
below the start of the next and the last range ends at
`brightness_max_level`. `none` models the `-EINVAL` exit. -/
def fill_user_bri_ends (brightness_max_level : ℕ) :
    List HbmRange → Option (List HbmRange)
  | [] => some []
  | [r] => some [{ r with user_bri_end := brightness_max_level }]
  | r1 :: r2 :: rest =>
      if r2.user_bri_start ≤ r1.user_bri_start then none
      else (fill_user_bri_ends brightness_max_level (r2 :: rest)).map
        (fun t => { r1 with user_bri_end := r2.user_bri_start - 1 } :: t)

/-- The `google,hbm-ranges` subtree as consumed by
`dsi_panel_bl_parse_hbm`: the child nodes and the exit-dimming pair. The
IRC properties only produce warnings and reset `irc_addr`, never a failure,
and are not modelled. -/
structure HbmDT where
  nodes : List HbmNodeDT
  exit_num_dimming_frames : Option ℕ
  exit_dimming_stop_cmd_count : ℕ
deriving DecidableEq, Repr

/-- `dsi_panel_bl_parse_hbm` (dsi_backlight.c:1756-1919): absent subtree is
success without HBM data; a bad range count is `-EINVAL`; the unpaired
exit-dimming check executes `goto exit_free` and returns the `rc` of the
exit-dimming-stop-command parse, which is 0 exactly when that command is
present (lines 1810-1823), so only the frames-without-command direction
fails; then the per-node loop, the sortedness check and the
`user_bri_end` fill run. On success `cur_range` starts at the
`HBM_RANGE_MAX` sentinel. -/
def dsi_panel_bl_parse_hbm (brightness_max_level : ℕ) (dt : Option HbmDT) :
    ℤ × Option HbmData :=
  match dt with
  | none => (0, none)
  | some d =>
    if d.nodes.length = 0 ∨ HBM_RANGE_MAX < d.nodes.length then (-22, none)
    else
      let exit_frames := d.exit_num_dimming_frames.getD 0
      if d.exit_dimming_stop_cmd_count ≠ 0 ∧ exit_frames = 0 then (0, none)
      else if d.exit_dimming_stop_cmd_count = 0 ∧ exit_frames ≠ 0 then
        (-22, none)
      else
        let pr := parse_hbm_nodes brightness_max_level d.nodes
        if pr.1 ≠ 0 then (pr.1, none)
        else
          match fill_user_bri_ends brightness_max_level pr.2 with
          | none => (-22, none)
          | some rs => (0, some ⟨rs, HBM_RANGE_MAX⟩)

/-- One row of `s6e3hc2_gamma_tables` (dsi_panel_switch.c:734-745). -/
structure GammaInfo where
  cmd : ℕ
  len : ℕ
  prefix_len : ℕ
  flash_offset : ℕ
  cmd_group_with_next : Bool
deriving DecidableEq, Repr

/-- `S6E3HC2_GAMMA_BAND_LEN` (dsi_panel_switch.c:721). -/
def S6E3HC2_GAMMA_BAND_LEN : ℕ := 45

/-- `s6e3hc2_gamma_tables` (dsi_panel_switch.c:740-745). -/
def s6e3hc2_gamma_tables : List GammaInfo :=
  [⟨0xC8, S6E3HC2_GAMMA_BAND_LEN * 3, 0, 0x0000, false⟩,
   ⟨0xC9, S6E3HC2_GAMMA_BAND_LEN * 4, 0, 0x0087, true⟩,
   ⟨0xB3, 2 + S6E3HC2_GAMMA_BAND_LEN, 2, 0x013B, false⟩]

/-- A display mode as the gamma store sees it: the refresh rate and the
per-descriptor gamma buffers (`switch_data->gamma_data`; `none` when the
mode memory was never allocated). Each buffer holds `len + 1` bytes, the
leading byte being the DCS command byte. -/
structure DisplayMode where
  refresh_rate : ℕ
  gamma_data : Option (List (List ℕ))
deriving DecidableEq, Repr

/-- `find_gamma_data_for_refresh_rate` (dsi_panel_switch.c:995-1017): the
first mode with the requested rate supplies its buffers; a missing mode or
missing allocation is `-ENODATA`. -/
def find_gamma_data_for_refresh_rate (modes : List DisplayMode) (rate : ℕ) :
    Except ℤ (List (List ℕ)) :=
  match modes.find? (fun m => m.refresh_rate == rate) with
  | some m =>
      match m.gamma_data with
      | some g => Except.ok g
      | none => Except.error (-61)
  | none => Except.error (-61)

/-- The per-descriptor body of the prefix-merge loop
(dsi_panel_switch.c:1061-1076): descriptors without a prefix are skipped;
otherwise `memcpy` overwrites the `prefix_len` bytes after the command byte
of the flash buffer with the corresponding OTP bytes. -/
def gamma_merge_one (info : GammaInfo) (otp flash : List ℕ) : List ℕ :=
  if info.prefix_len = 0 then flash
  else flash.take 1 ++ (otp.drop 1).take info.prefix_len
       ++ flash.drop (1 + info.prefix_len)

/-- The prefix-merge loop over all descriptors (the three table rows and
the two buffer arrays walk in lockstep). -/
def gamma_merge_tables : List GammaInfo → List (List ℕ) → List (List ℕ) →
    List (List ℕ)
  | info :: is, o :: os, f :: fs =>
      gamma_merge_one info o f :: gamma_merge_tables is os fs
  | _, _, _ => []

/-- In-place mutation target of the merge: the buffers of the first mode
with rate 90 are replaced. -/
def set_flash_gamma : List DisplayMode → List (List ℕ) → List DisplayMode
  | [], _ => []
  | m :: ms, g =>
      if m.refresh_rate == 90 then { m with gamma_data := some g } :: ms
      else m :: set_flash_gamma ms g

/-- `s6e3hc2_gamma_set_prefixes` (dsi_panel_switch.c:1034-1079): locate the
60 Hz (OTP) and 90 Hz (flash) buffers, then overwrite each flash prefix
with the OTP prefix. -/
def s6e3hc2_gamma_set_prefixes (modes : List DisplayMode) :
    Except ℤ (List DisplayMode) :=
  match find_gamma_data_for_refresh_rate modes 60 with
  | Except.error e => Except.error e
  | Except.ok gotp =>
    match find_gamma_data_for_refresh_rate modes 90 with
    | Except.error e => Except.error e
    | Except.ok gflash =>
        Except.ok (set_flash_gamma modes
          (gamma_merge_tables s6e3hc2_gamma_tables gotp gflash))

theorem wrap32_eq_self {z : ℤ} (h0 : -(2 ^ 31) ≤ z) (h1 : z < 2 ^ 31) :
    wrap32 z = z := by
  unfold wrap32
  have hlo : 0 ≤ z + 2 ^ 31 := by linarith
  have hhi : z + 2 ^ 31 < 2 ^ 32 := by linarith
  rw [Int.emod_eq_of_lt hlo hhi]
  ring

theorem toU32_ofNat {n : ℕ} (h : n < 2 ^ 32) : toU32 (n : ℤ) = n := by
  unfold toU32
  rw [Int.emod_eq_of_lt (by positivity) (by exact_mod_cast h)]
  simp

theorem tdiv_ofNat (a b : ℕ) : Int.tdiv (a : ℤ) (b : ℤ) = ((a / b : ℕ) : ℤ) :=
  rfl

/-- On a nonnegative numerator that together with the rounding summand stays
below `2 ^ 31`, the kernel macro computes ordinary round-to-nearest. -/
theorem div_round_closest_nonneg (p d : ℕ) (hd : 0 < d)
    (hov : p + d / 2 < 2 ^ 31) :
    div_round_closest (p : ℤ) (d : ℤ) = (((p + d / 2) / d : ℕ) : ℤ) := by
  unfold div_round_closest
  rw [show Int.tdiv (d : ℤ) 2 = ((d / 2 : ℕ) : ℤ) from rfl]
  rcases Nat.eq_zero_or_pos p with hp | hp
  · subst hp
    rw [if_neg (by simp [hd])]
    simp only [Nat.cast_zero, zero_sub, zero_add]
    rw [wrap32_eq_self (by omega) (by omega)]
    rw [Int.neg_tdiv, tdiv_ofNat]
    have h0 : d / 2 / d = 0 := Nat.div_eq_of_lt (Nat.div_lt_self hd one_lt_two)
    simp [h0, Nat.div_eq_of_lt (Nat.div_lt_self hd one_lt_two)]
  · rw [if_pos (by simp [hp, hd])]
    rw [show (p : ℤ) + ((d / 2 : ℕ) : ℤ) = ((p + d / 2 : ℕ) : ℤ) from by push_cast; ring]
    rw [wrap32_eq_self (by omega) (by omega)]
    rw [tdiv_ofNat]

/-- C1 (counterexample): at the extreme `u16` input
`x1 = 0, x2 = 65535, y1 = 0, y2 = 65535, x = 65534` the intermediate product
`(x - x1) * (y2 - y1)` overflows the 32-bit `int`, so the computed output is
not the round-to-nearest interpolation value the claim states (which would be
`65534`). -/
theorem c1_lerp_cex :
    dsi_backlight_lerp 0 65535 0 65535 65534 = some 4294967293 ∧
    lerp_spec_value 0 65535 0 65535 65534 = 65534 ∧
    (4294967293 : ℕ) ≠ 65534 := by
  refine ⟨?_, by decide, by decide⟩
  decide

/-- C1 (amended): for `u16` inputs the linear interpolation fails with the
invalid-range error exactly when `x2 < x1` or `y2 < y1`; otherwise it returns
`y1` when `x ≤ x1` or `x2 = x1`, returns `y2` when `x ≥ x2`, and otherwise
returns `y1 + DIV_ROUND_CLOSEST((x - x1) * (y2 - y1), x2 - x1)` — provided
the rounding computation `(x - x1) * (y2 - y1) + (x2 - x1) / 2` does not
overflow the 32-bit signed intermediate (which the original claim overlooked). -/
theorem c1_lerp_amended (x1 x2 y1 y2 x : ℕ)
    (hx1 : x1 < 65536) (hx2 : x2 < 65536) (hy1 : y1 < 65536)
    (hy2 : y2 < 65536) (hx : x < 65536)
    (hov : (x - x1) * (y2 - y1) + (x2 - x1) / 2 < 2 ^ 31) :
    (dsi_backlight_lerp x1 x2 y1 y2 x = none ↔ (x2 < x1 ∨ y2 < y1)) ∧
    (¬(x2 < x1 ∨ y2 < y1) →
      dsi_backlight_lerp x1 x2 y1 y2 x =
        some (if x ≤ x1 ∨ x2 = x1 then y1
              else if x2 ≤ x then y2
              else lerp_spec_value x1 x2 y1 y2 x)) := by
  constructor
  · unfold dsi_backlight_lerp
    by_cases hfail : x2 < x1 ∨ y2 < y1
    · simp [hfail]
    · rw [if_neg hfail]
      constructor
      · intro h
        by_cases h1 : x2 - x1 = 0 ∨ x ≤ x1
        · rw [if_pos h1] at h
          exact absurd h (Option.some_ne_none _)
        · rw [if_neg h1] at h
          by_cases h2 : x2 ≤ x
          · rw [if_pos h2] at h
            exact absurd h (Option.some_ne_none _)
          · rw [if_neg h2] at h
            exact absurd h (Option.some_ne_none _)
      · intro h
        exact absurd h hfail
  · intro hfail
    push_neg at hfail
    obtain ⟨hxx, hyy⟩ := hfail
    unfold dsi_backlight_lerp
    rw [if_neg (by omega)]
    by_cases h1 : x ≤ x1 ∨ x2 = x1
    · rw [if_pos (by omega), if_pos h1]
    · push_neg at h1
      obtain ⟨hxa, hne⟩ := h1
      rw [if_neg (by omega)]
      by_cases h2 : x2 ≤ x
      · rw [if_pos h2, if_pos h2, if_neg (by omega)]
      · rw [if_neg h2, if_neg (by omega), if_neg h2]
        -- interpolation branch: x1 < x < x2, y1 ≤ y2, no 32-bit overflow
        have hdpos : 0 < x2 - x1 := by omega
        have hprod : (((x - x1) * (y2 - y1) : ℕ) : ℤ) =
            ((x : ℤ) - (x1 : ℤ)) * ((y2 : ℤ) - (y1 : ℤ)) := by
          rw [Nat.cast_mul, Nat.cast_sub (show x1 ≤ x by omega),
            Nat.cast_sub (show y1 ≤ y2 by omega)]
        have hdcast : (((x2 - x1 : ℕ)) : ℤ) = ((x2 : ℤ) - (x1 : ℤ)) :=
          Nat.cast_sub (show x1 ≤ x2 by omega)
        rw [← hprod, ← hdcast]
        have hpb : (x - x1) * (y2 - y1) < 2 ^ 31 := by omega
        rw [wrap32_eq_self
          (by have := Int.natCast_nonneg ((x - x1) * (y2 - y1)); omega)
          (by exact_mod_cast hpb)]
        rw [div_round_closest_nonneg _ _ hdpos hov]
        rw [show ((((x - x1) * (y2 - y1) + (x2 - x1) / 2) / (x2 - x1) : ℕ) : ℤ) + (y1 : ℤ) =
            (((((x - x1) * (y2 - y1) + (x2 - x1) / 2) / (x2 - x1)) + y1 : ℕ) : ℤ) from by
          push_cast; ring]
        have hqb : ((x - x1) * (y2 - y1) + (x2 - x1) / 2) / (x2 - x1) + y1 < 2 ^ 32 := by
          have hq : ((x - x1) * (y2 - y1) + (x2 - x1) / 2) / (x2 - x1) ≤
              (x - x1) * (y2 - y1) + (x2 - x1) / 2 := Nat.div_le_self _ _
          omega
        rw [toU32_ofNat hqb]
        unfold lerp_spec_value
        congr 1
        omega

/-- C1 (witness): the amended theorem applied at the concrete input of spec
scenario 2, `lerp(201, 255, 801, 1023, 220) = 879`. -/
theorem c1_lerp_witness :
    dsi_backlight_lerp 201 255 801 1023 220 =
      some (if 220 ≤ 201 ∨ 255 = 201 then 801
            else if 255 ≤ 220 then 1023
            else lerp_spec_value 201 255 801 1023 220) :=
  (c1_lerp_amended 201 255 801 1023 220 (by decide) (by decide) (by decide)
    (by decide) (by decide) (by decide)).2 (by decide)

theorem hasDcsWrite_append (l1 l2 : List DsiEvent) :
    hasDcsWrite (l1 ++ l2) = (hasDcsWrite l1 || hasDcsWrite l2) :=
  List.any_append

/-- The brightness calculation only ever rewrites the `hbm` field of the
config (the current-range bookkeeping); every other field survives. -/
theorem calculate_cfg_shape (cfg : BLConfig) (hm : HbmMode) (b : ℤ) :
    ∃ hh, (dsi_backlight_calculate cfg hm b).1 = { cfg with hbm := hh } := by
  unfold dsi_backlight_calculate
  by_cases h0 : b ≤ 0
  · exact ⟨cfg.hbm, by rw [if_pos h0]⟩
  · rw [if_neg h0]
    by_cases hm0 : hm ≠ HbmMode.off
    · rw [if_pos hm0]
      cases hh : cfg.hbm with
      | none =>
          refine ⟨none, ?_⟩
          show cfg = { cfg with hbm := none }
          rw [← hh]
      | some h => exact ⟨_, rfl⟩
    · rw [if_neg hm0]
      exact ⟨cfg.hbm, rfl⟩

/-- The HBM calculation preserves the parsed ranges. -/
theorem calculate_hbm_ranges (h : HbmData) (a b : ℕ) :
    (dsi_backlight_calculate_hbm h a b).1.ranges = h.ranges := by
  unfold dsi_backlight_calculate_hbm
  cases ht : (if b ≠ 0 then dsi_backlight_hbm_find_range h b else some 0) with
  | none => rfl
  | some target =>
      by_cases hc : h.cur_range ≠ target <;> simp [hc]

/-- The brightness calculation emits HBM dimming/entry commands at most;
never a DCS brightness write. -/
theorem calculate_no_dcs (cfg : BLConfig) (hm : HbmMode) (b : ℤ) :
    hasDcsWrite (dsi_backlight_calculate cfg hm b).2.1 = false := by
  unfold dsi_backlight_calculate
  by_cases h0 : b ≤ 0
  · rw [if_pos h0]; rfl
  · rw [if_neg h0]
    by_cases hm0 : hm ≠ HbmMode.off
    · rw [if_pos hm0]
      cases hh : cfg.hbm with
      | none => rfl
      | some h =>
          show hasDcsWrite (dsi_backlight_calculate_hbm h cfg.bl_actual _).2.1 = false
          unfold dsi_backlight_calculate_hbm
          cases ht : (if _ ≠ 0 then dsi_backlight_hbm_find_range h _ else some 0) with
          | none => rfl
          | some target =>
              by_cases hc : h.cur_range ≠ target <;>
                by_cases hf : (h.ranges.getD target ⟨0, 0, 0, 0, 0⟩).num_dimming_frames ≠ 0 <;>
                simp [hc, hf, hasDcsWrite]
    · rw [if_neg hm0]; rfl

/-- C7: the DPMS transition table of `get_state_after_dpms` — ON clears
FBBLANK, LP and LP2; OFF clears LP and LP2 and sets FBBLANK; LP1 sets LP and
clears LP2; LP2 sets both LP and LP2; and OFF followed by ON leaves FBBLANK,
LP and LP2 all cleared, from any starting state. -/
theorem c7_dpms_table (s : BLState) :
    get_state_after_dpms s DpmsMode.on =
      { s with fbblank := false, lp := false, lp2 := false } ∧
    get_state_after_dpms s DpmsMode.off =
      { s with fbblank := true, lp := false, lp2 := false } ∧
    get_state_after_dpms s DpmsMode.lp1 = { s with lp := true, lp2 := false } ∧
    get_state_after_dpms s DpmsMode.lp2 = { s with lp := true, lp2 := true } ∧
    (get_state_after_dpms (get_state_after_dpms s DpmsMode.off)
        DpmsMode.on).fbblank = false ∧
    (get_state_after_dpms (get_state_after_dpms s DpmsMode.off)
        DpmsMode.on).lp = false ∧
    (get_state_after_dpms (get_state_after_dpms s DpmsMode.off)
        DpmsMode.on).lp2 = false :=
  ⟨rfl, rfl, rfl, rfl, rfl, rfl, rfl⟩

/-- C3 (counterexample): with `high_byte_offset = 4` and level `0x1234` the
first payload byte is the `u8` truncation `0x23`, not `bl_lvl >>
high_byte_offset = 0x123` as the claim states. -/
theorem c3_dcs_cex :
    (dsi_backlight_update_dcs
      { bl_min_level := 0, bl_max_level := 4096, brightness_max_level := 255,
        bl_scale := 1024, bl_scale_sv := 65535, lut := none, bl_actual := 0,
        high_byte_offset := 4, hbm := none, bl_notifier := none,
        allow_bl_update := true, bl_update_pending := false,
        last_state := ⟨false, false, false, false⟩ } 4660).2 =
      some [35, 4] ∧
    (4660 : ℕ) >>> 4 = 291 ∧ (35 : ℕ) ≠ 291 := by
  refine ⟨?_, by decide, by decide⟩
  decide

/-- C3 (amended): for a DCS backlight and a level `bl_lvl ≤ 0xffff` that
differs from `bl_actual`, the write succeeds and sends a two-byte payload
exactly when `bl_max_level ≥ 2^high_byte_offset`; the two-byte payload is
big-endian with respect to `high_byte_offset` with each byte truncated to
`u8`: first byte `(bl_lvl >> high_byte_offset) mod 256`, second byte
`(bl_lvl mod 2^high_byte_offset) mod 256`; otherwise the single byte
`bl_lvl mod 256` is sent (the claim omitted the `u8` truncation). -/
theorem c3_dcs_amended (cfg : BLConfig) (bl_lvl : ℕ)
    (hle : bl_lvl ≤ 65535) (hne : bl_lvl ≠ cfg.bl_actual) :
    (dsi_backlight_update_dcs cfg bl_lvl).1 = 0 ∧
    ((2 ^ cfg.high_byte_offset ≤ cfg.bl_max_level →
      (dsi_backlight_update_dcs cfg bl_lvl).2 =
        some [bl_lvl / 2 ^ cfg.high_byte_offset % 256,
              bl_lvl % 2 ^ cfg.high_byte_offset % 256]) ∧
     (cfg.bl_max_level < 2 ^ cfg.high_byte_offset →
      (dsi_backlight_update_dcs cfg bl_lvl).2 = some [bl_lvl % 256])) := by
  unfold dsi_backlight_update_dcs toU8
  rw [if_neg (by omega), if_neg hne]
  refine ⟨?_, ?_, ?_⟩
  · split <;> rfl
  · intro h
    rw [if_pos h, Nat.shiftRight_eq_div_pow, Nat.and_comm,
      Nat.and_pow_two_sub_one_eq_mod]
  · intro h
    rw [if_neg (by omega)]

/-- C3 (witness): the amended theorem at spec scenario 1 — `bl_max_level =
255 < 2^8`, so brightness 128 goes out as the single byte `0x80`. -/
theorem c3_dcs_witness :
    (dsi_backlight_update_dcs
      { bl_min_level := 1, bl_max_level := 255, brightness_max_level := 255,
        bl_scale := 1024, bl_scale_sv := 65535, lut := none, bl_actual := 0,
        high_byte_offset := 8, hbm := none, bl_notifier := none,
        allow_bl_update := true, bl_update_pending := false,
        last_state := ⟨false, false, false, false⟩ } 128).2 =
      some [128 % 256] :=
  (c3_dcs_amended _ 128 (by decide) (by decide)).2.2 (by decide)

/-- C8: configuration invariant checking at registration. The range-overlap
check and the per-range unpaired-dimming check are fatal (`-EINVAL`), but
the HBM panel-max-below-min check is not: `dsi_panel_bl_parse_hbm_node`
prints the error and then returns the `rc` of the preceding successful
property read, which is 0. On the failing input (one range with
`bl-min-level = 100`, `bl-max-level = 50`) the whole HBM parse succeeds with
`panel_bri_end` left at 0, contradicting the claim that the parse returns a
nonzero error. -/
theorem c8_parse_minmax_bug :
    dsi_panel_bl_parse_hbm 255
        (some ⟨[⟨some 100, some 100, some 50, none, 0⟩], none, 0⟩) =
      (0, some ⟨[⟨100, 255, 100, 0, 0⟩], HBM_RANGE_MAX⟩) ∧
    (dsi_panel_bl_parse_hbm 255
        (some ⟨[⟨some 100, some 1, some 2, none, 0⟩,
                ⟨some 100, some 1, some 2, none, 0⟩], none, 0⟩)).1 = -22 ∧
    (dsi_panel_bl_parse_hbm_node 255 ⟨some 10, some 1, some 2, none, 3⟩).1 =
      -22 ∧
    (dsi_panel_bl_parse_hbm_node 255 ⟨some 10, some 1, some 2, some 5, 0⟩).1 =
      -22 := by
  refine ⟨?_, ?_, by decide, by decide⟩ <;> decide

theorem list_three_le {α : Type} (l : List α) (h : 3 ≤ l.length) :
    ∃ a b c t, l = a :: b :: c :: t := by
  rcases l with _ | ⟨a, _ | ⟨b, _ | ⟨c, t⟩⟩⟩
  · simp at h
  · simp at h
  · simp at h
  · exact ⟨a, b, c, t, rfl⟩

/-- C9: after a successful gamma prefix merge, every descriptor with
`prefix_len > 0` has the first `prefix_len` payload bytes (after the leading
command byte) of its 90 Hz flash buffer equal to those of the 60 Hz OTP
buffer, the command byte and the remaining bytes of the flash buffer are
untouched, and descriptors with `prefix_len = 0` keep their flash buffer
unchanged. -/
theorem c9_gamma_set_prefixes (gotp gflash : List (List ℕ))
    (ho : gotp.length = 3) (hf : gflash.length = 3)
    (hlen : ∀ i : ℕ, i < 3 →
      1 + (s6e3hc2_gamma_tables.getD i ⟨0, 0, 0, 0, false⟩).prefix_len ≤
        (gotp.getD i []).length ∧
      1 + (s6e3hc2_gamma_tables.getD i ⟨0, 0, 0, 0, false⟩).prefix_len ≤
        (gflash.getD i []).length) :
    s6e3hc2_gamma_set_prefixes [⟨60, some gotp⟩, ⟨90, some gflash⟩] =
      Except.ok [⟨60, some gotp⟩,
        ⟨90, some (gamma_merge_tables s6e3hc2_gamma_tables gotp gflash)⟩] ∧
    (∀ i : ℕ, i < 3 →
      (0 < (s6e3hc2_gamma_tables.getD i ⟨0, 0, 0, 0, false⟩).prefix_len →
        (((gamma_merge_tables s6e3hc2_gamma_tables gotp gflash).getD i
            []).drop 1).take
            (s6e3hc2_gamma_tables.getD i ⟨0, 0, 0, 0, false⟩).prefix_len =
          ((gotp.getD i []).drop 1).take
            (s6e3hc2_gamma_tables.getD i ⟨0, 0, 0, 0, false⟩).prefix_len ∧
        ((gamma_merge_tables s6e3hc2_gamma_tables gotp gflash).getD i
            []).take 1 = (gflash.getD i []).take 1 ∧
        ((gamma_merge_tables s6e3hc2_gamma_tables gotp gflash).getD i
            []).drop
            (1 + (s6e3hc2_gamma_tables.getD i ⟨0, 0, 0, 0, false⟩).prefix_len) =
          (gflash.getD i []).drop
            (1 + (s6e3hc2_gamma_tables.getD i ⟨0, 0, 0, 0, false⟩).prefix_len)) ∧
      ((s6e3hc2_gamma_tables.getD i ⟨0, 0, 0, 0, false⟩).prefix_len = 0 →
        (gamma_merge_tables s6e3hc2_gamma_tables gotp gflash).getD i [] =
          gflash.getD i [])) := by
  obtain ⟨o1, o2, o3, rest, rfl⟩ :
      ∃ a b c t, gotp = a :: b :: c :: t := list_three_le _ (by omega)
  obtain ⟨f1, f2, f3, rest2, rfl⟩ :
      ∃ a b c t, gflash = a :: b :: c :: t := list_three_le _ (by omega)
  have hrest : rest = [] := by
    simp at ho
    exact ho
  have hrest2 : rest2 = [] := by
    simp at hf
    exact hf
  subst hrest
  subst hrest2
  obtain ⟨a1, a2, a3, ot, rfl⟩ : ∃ a b c t, o3 = a :: b :: c :: t :=
    list_three_le _ (by have := (hlen 2 (by omega)).1; simpa using this)
  obtain ⟨b1, b2, b3, ft, rfl⟩ : ∃ a b c t, f3 = a :: b :: c :: t :=
    list_three_le _ (by have := (hlen 2 (by omega)).2; simpa using this)
  refine ⟨rfl, ?_⟩
  intro i hi
  interval_cases i
  · exact ⟨fun h => absurd h (by decide), fun _ => rfl⟩
  · exact ⟨fun h => absurd h (by decide), fun _ => rfl⟩
  · exact ⟨fun _ => ⟨rfl, rfl, rfl⟩, fun h => absurd h (by decide)⟩

/-- C9 (witness): the theorem at spec scenario 6 — descriptor 2 has
`prefix_len = 2`, its flash payload starts `[0x00, 0x00]` and its OTP
payload `[0x5A, 0x3C]`; after merging the flash buffer carries
`[0x5A, 0x3C]`. -/
theorem c9_gamma_witness :
    s6e3hc2_gamma_set_prefixes
        [⟨60, some [[200, 1], [201, 2], [179, 90, 60]]⟩,
         ⟨90, some [[200, 9], [201, 8], [179, 0, 0]]⟩] =
      Except.ok [⟨60, some [[200, 1], [201, 2], [179, 90, 60]]⟩,
         ⟨90, some [[200, 9], [201, 8], [179, 90, 60]]⟩] :=
  ((c9_gamma_set_prefixes [[200, 1], [201, 2], [179, 90, 60]]
      [[200, 9], [201, 8], [179, 0, 0]] (by rfl) (by rfl)
      (by decide)).1).trans (by rfl)

/-- With the scale factor within its divisor (the spec invariant
`scale ∈ [0, MAX]`), a 31-bit input and a divisor of at most `2 ^ 16`,
`mult_frac` computes the exact scaled value `x * n / d` — no `u32`
truncation fires. -/
theorem mult_frac_exact (x n d : ℕ) (hn : n ≤ d) (hx : x < 2 ^ 31)
    (hd : 0 < d) (hdle : d ≤ 65536) :
    mult_frac x n d = x * n / d := by
  unfold mult_frac
  have hquot : x / d * n ≤ x :=
    le_trans (Nat.mul_le_mul_left _ hn) (Nat.div_mul_le_self x d)
  have hrem : x % d * n < 2 ^ 32 := by
    have h1 : x % d < d := Nat.mod_lt x hd
    calc x % d * n ≤ 65535 * 65536 := Nat.mul_le_mul (by omega) (by omega)
    _ < 2 ^ 32 := by norm_num
  rw [Nat.mod_eq_of_lt (by omega : x / d * n < 2 ^ 32), Nat.mod_eq_of_lt hrem]
  have hid : x * n / d = x / d * n + x % d * n / d := by
    conv_lhs => rw [← Nat.div_add_mod x d]
    rw [add_mul, mul_assoc, Nat.mul_add_div hd]
  have hle : x * n / d ≤ x := by
    have : x * n ≤ x * d := Nat.mul_le_mul_left _ hn
    calc x * n / d ≤ x * d / d := Nat.div_le_div_right this
    _ = x := Nat.mul_div_cancel x hd
  rw [← hid, Nat.mod_eq_of_lt (by omega)]

/-- C2: `dsi_backlight_calculate` returns 0 for every non-positive
brightness, unconditionally; and for positive brightness (with the scale
factors within their spec ranges and a 31-bit brightness) it computes
`b * bl_scale / MAX_BL_SCALE_LEVEL`, multiplies that by
`bl_scale_sv / MAX_SV_BL_SCALE_LEVEL`, and dispatches the result to the HBM
or the normal mapping according to `hbm_mode`. -/
theorem c2_calculate (cfg : BLConfig) (hm : HbmMode) (b : ℤ)
    (hscale : cfg.bl_scale ≤ MAX_BL_SCALE_LEVEL)
    (hsv : cfg.bl_scale_sv ≤ MAX_SV_BL_SCALE_LEVEL)
    (hb : b.toNat < 2 ^ 31) :
    (b ≤ 0 → dsi_backlight_calculate cfg hm b = (cfg, [], 0)) ∧
    (0 < b →
      dsi_backlight_calculate cfg hm b =
        (if hm ≠ HbmMode.off then
           match cfg.hbm with
           | some h =>
               let r := dsi_backlight_calculate_hbm h cfg.bl_actual
                 (b.toNat * cfg.bl_scale / MAX_BL_SCALE_LEVEL
                   * cfg.bl_scale_sv / MAX_SV_BL_SCALE_LEVEL)
               ({ cfg with hbm := some r.1 }, r.2.1, r.2.2)
           | none => (cfg, [], cfg.bl_actual)
         else (cfg, [], dsi_backlight_calculate_normal cfg
           (b.toNat * cfg.bl_scale / MAX_BL_SCALE_LEVEL
             * cfg.bl_scale_sv / MAX_SV_BL_SCALE_LEVEL)))) := by
  constructor
  · intro h
    unfold dsi_backlight_calculate
    rw [if_pos h]
  · intro h
    unfold dsi_backlight_calculate
    rw [if_neg (by omega)]
    have e1 : mult_frac b.toNat cfg.bl_scale MAX_BL_SCALE_LEVEL =
        b.toNat * cfg.bl_scale / MAX_BL_SCALE_LEVEL :=
      mult_frac_exact _ _ _ hscale hb (by decide) (by decide)
    have hb1 : b.toNat * cfg.bl_scale / MAX_BL_SCALE_LEVEL < 2 ^ 31 := by
      have h1 : b.toNat * cfg.bl_scale ≤ b.toNat * MAX_BL_SCALE_LEVEL :=
        Nat.mul_le_mul_left _ hscale
      have h2 : b.toNat * cfg.bl_scale / MAX_BL_SCALE_LEVEL ≤
          b.toNat * MAX_BL_SCALE_LEVEL / MAX_BL_SCALE_LEVEL :=
        Nat.div_le_div_right h1
      have h3 : b.toNat * MAX_BL_SCALE_LEVEL / MAX_BL_SCALE_LEVEL = b.toNat :=
        Nat.mul_div_cancel _ (by decide)
      omega
    have e2 : mult_frac (b.toNat * cfg.bl_scale / MAX_BL_SCALE_LEVEL)
        cfg.bl_scale_sv MAX_SV_BL_SCALE_LEVEL =
        b.toNat * cfg.bl_scale / MAX_BL_SCALE_LEVEL * cfg.bl_scale_sv /
          MAX_SV_BL_SCALE_LEVEL :=
      mult_frac_exact _ _ _ hsv hb1 (by decide) (by decide)
    simp only [e1, e2]

/-- C2 (witness): spec scenario 1 — brightness 128 at unity scales on a
255-level panel maps to panel level 128 through the normal path. -/
theorem c2_calculate_witness :
    (dsi_backlight_calculate
      { bl_min_level := 1, bl_max_level := 255, brightness_max_level := 255,
        bl_scale := 1024, bl_scale_sv := 65535, lut := none, bl_actual := 0,
        high_byte_offset := 8, hbm := none, bl_notifier := none,
        allow_bl_update := true, bl_update_pending := false,
        last_state := ⟨false, false, false, false⟩ } HbmMode.off 128).2.2 =
      128 := by
  have h := (c2_calculate
      { bl_min_level := 1, bl_max_level := 255, brightness_max_level := 255,
        bl_scale := 1024, bl_scale_sv := 65535, lut := none, bl_actual := 0,
        high_byte_offset := 8, hbm := none, bl_notifier := none,
        allow_bl_update := true, bl_update_pending := false,
        last_state := ⟨false, false, false, false⟩ } HbmMode.off 128
      (by decide) (by decide) (by decide)).2 (by decide)
  rw [h]
  decide

theorem find_range_loop_none (l : List HbmRange) (b : ℕ) :
    ∀ i, (find_range_loop l b i = none ↔ ∀ r ∈ l, r.user_bri_end < b) := by
  induction l with
  | nil => intro i; simp [find_range_loop]
  | cons r rest ih =>
      intro i
      unfold find_range_loop
      by_cases h : b ≤ r.user_bri_end
      · rw [if_pos h]
        simp only [List.mem_cons]
        constructor
        · intro hc
          exact absurd hc (Option.some_ne_none _)
        · intro hall
          exact absurd (hall r (Or.inl rfl)) (by omega)
      · rw [if_neg h]
        rw [ih (i + 1)]
        simp only [List.mem_cons]
        constructor
        · intro hall r2 hr2
          rcases hr2 with rfl | hr2
          · omega
          · exact hall r2 hr2
        · intro hall r2 hr2
          exact hall r2 (Or.inr hr2)

theorem find_range_loop_some (l : List HbmRange) (b : ℕ) :
    ∀ i j, find_range_loop l b i = some j →
      i ≤ j ∧ j - i < l.length ∧
      b ≤ (l.getD (j - i) ⟨0, 0, 0, 0, 0⟩).user_bri_end ∧
      ∀ k, k < j - i → (l.getD k ⟨0, 0, 0, 0, 0⟩).user_bri_end < b := by
  induction l with
  | nil => intro i j h; simp [find_range_loop] at h
  | cons r rest ih =>
      intro i j h
      unfold find_range_loop at h
      by_cases hb : b ≤ r.user_bri_end
      · rw [if_pos hb] at h
        obtain rfl : i = j := Option.some_inj.mp h
        refine ⟨le_refl _, by simp, ?_, ?_⟩
        · simpa using hb
        · intro k hk; omega
      · rw [if_neg hb] at h
        obtain ⟨h1, h2, h3, h4⟩ := ih (i + 1) j h
        refine ⟨by omega, by simp; omega, ?_, ?_⟩
        · have hji : j - i = (j - (i + 1)) + 1 := by omega
          rw [hji]
          simpa using h3
        · intro k hk
          cases k with
          | zero => simpa using (by omega : r.user_bri_end < b)
          | succ k2 =>
              have hk2 : k2 < j - (i + 1) := by omega
              simpa using h4 k2 hk2

/-- C6: `dsi_backlight_hbm_find_range` returns the smallest index whose
`user_bri_end` is at least the brightness (the linear scan over the sorted
ranges stops at the first hit); and when every range ends below the
brightness, `dsi_backlight_calculate_hbm` surfaces the failed lookup by
returning the unchanged `bl_actual` (and touching nothing). -/
theorem c6_hbm_range_lookup (hbm : HbmData) (blActual b : ℕ) (hb : 0 < b) :
    (∀ j, dsi_backlight_hbm_find_range hbm b = some j →
        j < hbm.ranges.length ∧
        b ≤ (hbm.ranges.getD j ⟨0, 0, 0, 0, 0⟩).user_bri_end ∧
        ∀ k, k < j → (hbm.ranges.getD k ⟨0, 0, 0, 0, 0⟩).user_bri_end < b) ∧
    ((∀ r ∈ hbm.ranges, r.user_bri_end < b) →
        dsi_backlight_calculate_hbm hbm blActual b = (hbm, [], blActual)) := by
  constructor
  · intro j h
    obtain ⟨h1, h2, h3, h4⟩ := find_range_loop_some hbm.ranges b 0 j h
    refine ⟨by omega, by simpa using h3, ?_⟩
    intro k hk
    have := h4 k (by omega)
    simpa using this
  · intro hall
    have hnone : dsi_backlight_hbm_find_range hbm b = none :=
      (find_range_loop_none hbm.ranges b 0).mpr hall
    unfold dsi_backlight_calculate_hbm
    rw [if_pos (by omega : b ≠ 0), hnone]

/-- C6 (witness): brightness 300 on spec scenario 2 ranges (ending at 255)
matches no range, so the calculation returns the prior `bl_actual` 500. -/
theorem c6_hbm_range_witness :
    dsi_backlight_calculate_hbm
        ⟨[⟨1, 200, 100, 800, 0⟩, ⟨201, 255, 801, 1023, 0⟩], 4⟩ 500 300 =
      (⟨[⟨1, 200, 100, 800, 0⟩, ⟨201, 255, 801, 1023, 0⟩], 4⟩, [], 500) :=
  (c6_hbm_range_lookup _ 500 300 (by decide)).2 (by decide)

/-- C10: when the scaled brightness reaching the HBM calculation is 0 (for
example because `bl_scale = 0` while the user brightness is positive),
`dsi_backlight_calculate_hbm` selects range 0 — the dimmest range — and
returns its `panel_bri_start` (a nonzero panel level when that range starts
above 0, as real configurations do), not 0 and not an error. -/
theorem c10_hbm_zero_brightness (h : HbmData) (blActual : ℕ)
    (cfg : BLConfig) (b : ℤ) (r0 : HbmRange)
    (hr0 : h.ranges.getD 0 ⟨0, 0, 0, 0, 0⟩ = r0)
    (hus : r0.user_bri_start ≤ r0.user_bri_end)
    (hue : r0.user_bri_end ≤ 65535)
    (hps : r0.panel_bri_start ≤ r0.panel_bri_end)
    (hpe : r0.panel_bri_end ≤ 65535)
    (hpos : 0 < r0.panel_bri_start) :
    (dsi_backlight_calculate_hbm h blActual 0).1.cur_range = 0 ∧
    (dsi_backlight_calculate_hbm h blActual 0).2.2 = r0.panel_bri_start ∧
    (dsi_backlight_calculate_hbm h blActual 0).2.2 ≠ 0 ∧
    (cfg.bl_scale = 0 → cfg.hbm = some h → 0 < b →
      (dsi_backlight_calculate cfg HbmMode.on b).2.2 = r0.panel_bri_start) := by
  have hlerp : dsi_backlight_lerp (toU16 r0.user_bri_start)
      (toU16 r0.user_bri_end) (toU16 r0.panel_bri_start)
      (toU16 r0.panel_bri_end) (toU16 0) = some r0.panel_bri_start := by
    have hu16s : toU16 r0.user_bri_start = r0.user_bri_start :=
      Nat.mod_eq_of_lt (by omega)
    have hu16e : toU16 r0.user_bri_end = r0.user_bri_end :=
      Nat.mod_eq_of_lt (by omega)
    have hp16s : toU16 r0.panel_bri_start = r0.panel_bri_start :=
      Nat.mod_eq_of_lt (by omega)
    have hp16e : toU16 r0.panel_bri_end = r0.panel_bri_end :=
      Nat.mod_eq_of_lt (by omega)
    rw [hu16s, hu16e, hp16s, hp16e, show toU16 0 = 0 from rfl]
    unfold dsi_backlight_lerp
    rw [if_neg (by omega), if_pos (Or.inr (by omega))]
  have hr0g : h.ranges[0]?.getD ⟨0, 0, 0, 0, 0⟩ = r0 := by
    rw [← List.getD_eq_getElem?_getD]
    exact hr0
  have kval : ∀ a : ℕ,
      (dsi_backlight_calculate_hbm h a 0).2.2 = r0.panel_bri_start := by
    intro a
    unfold dsi_backlight_calculate_hbm
    rw [if_neg (show ¬(0 : ℕ) ≠ 0 from by omega)]
    simp [hr0, hr0g, hlerp]
  have kcur : (dsi_backlight_calculate_hbm h blActual 0).1.cur_range = 0 := by
    unfold dsi_backlight_calculate_hbm
    rw [if_neg (show ¬(0 : ℕ) ≠ 0 from by omega)]
    by_cases hc : h.cur_range ≠ 0
    · simp [hc]
    · push_neg at hc
      simp [hc]
  refine ⟨kcur, kval blActual, by rw [kval blActual]; omega, ?_⟩
  intro hs hh hb
  unfold dsi_backlight_calculate
  rw [if_neg (by omega)]
  have ht1 : mult_frac b.toNat cfg.bl_scale MAX_BL_SCALE_LEVEL = 0 := by
    rw [hs]
    simp [mult_frac]
  have ht2 : mult_frac 0 cfg.bl_scale_sv MAX_SV_BL_SCALE_LEVEL = 0 := by
    simp [mult_frac]
  simp only [ht1, ht2, if_pos (show HbmMode.on ≠ HbmMode.off from by decide),
    hh]
  exact kval cfg.bl_actual

/-- C10 (witness): the theorem at a one-range configuration
`[1..200 → 100..800]` with scale 0 and user brightness 57: the returned
panel level is 100, the dimmest range panel floor. -/
theorem c10_hbm_zero_witness :
    (dsi_backlight_calculate
      { bl_min_level := 1, bl_max_level := 1023, brightness_max_level := 255,
        bl_scale := 0, bl_scale_sv := 65535, lut := none, bl_actual := 3,
        high_byte_offset := 8, hbm := some ⟨[⟨1, 200, 100, 800, 0⟩], 4⟩,
        bl_notifier := none, allow_bl_update := true,
        bl_update_pending := false,
        last_state := ⟨false, false, false, false⟩ } HbmMode.on 57).2.2 =
      100 :=
  (c10_hbm_zero_brightness ⟨[⟨1, 200, 100, 800, 0⟩], 4⟩ 3 _ 57
      ⟨1, 200, 100, 800, 0⟩ rfl (by decide) (by decide) (by decide)
      (by decide) (by decide)).2.2.2 rfl rfl (by decide)

theorem binned_find_loop_some (l : List BinnedLpNode) (b : ℕ) :
    ∀ i j, binned_find_loop l b i = some j →
      i ≤ j ∧ j - i < l.length ∧
      b ≤ (l.getD (j - i) ⟨0⟩).bl_threshold ∧
      ∀ k, k < j - i → (l.getD k ⟨0⟩).bl_threshold < b := by
  induction l with
  | nil => intro i j h; simp [binned_find_loop] at h
  | cons n rest ih =>
      intro i j h
      unfold binned_find_loop at h
      by_cases hb : b ≤ n.bl_threshold
      · rw [if_pos hb] at h
        obtain rfl : i = j := Option.some_inj.mp h
        refine ⟨le_refl _, by simp, ?_, ?_⟩
        · simpa using hb
        · intro k hk; omega
      · rw [if_neg hb] at h
        obtain ⟨h1, h2, h3, h4⟩ := ih (i + 1) j h
        refine ⟨by omega, by simp; omega, ?_, ?_⟩
        · have hji : j - i = (j - (i + 1)) + 1 := by omega
          rw [hji]
          simpa using h3
        · intro k hk
          cases k with
          | zero => simpa using (by omega : n.bl_threshold < b)
          | succ k2 =>
              have hk2 : k2 < j - (i + 1) := by omega
              simpa using h4 k2 hk2

/-- C5: while the composite state includes an LP flag,
`dsi_panel_binned_bl_update` selects the first bin whose threshold is at
least the current brightness and returns without any DCS brightness write
(the bin command is the only emission); only when the bin becomes none —
the state no longer LP — does it fall through to the DCS brightness write,
and on the transition out of LP it first invalidates `bl_actual` to
`(u32)-1`, so the DCS write cannot be skipped as stale. -/
theorem c5_binned_lp_update (cfg : BLConfig) (lp : BinnedLpData)
    (st : BLState) (br : ℤ) (bl_lvl : ℕ) :
    (∀ i, binned_find_loop lp.modes (toU32 br) 0 = some i →
        i < lp.modes.length ∧
        toU32 br ≤ (lp.modes.getD i ⟨0⟩).bl_threshold ∧
        ∀ k, k < i → (lp.modes.getD k ⟨0⟩).bl_threshold < toU32 br) ∧
    (is_lp_mode st = true →
      ∀ i, binned_find_loop lp.modes (toU32 br) 0 = some i →
        (dsi_panel_binned_bl_update cfg lp st br bl_lvl).2.2.2 = 0 ∧
        hasDcsWrite
          (dsi_panel_binned_bl_update cfg lp st br bl_lvl).2.2.1 = false ∧
        (dsi_panel_binned_bl_update cfg lp st br bl_lvl).2.1.last_lp_mode =
          some i ∧
        (dsi_panel_binned_bl_update cfg lp st br bl_lvl).1.bl_actual =
          cfg.bl_actual) ∧
    (is_lp_mode st = false → lp.last_lp_mode ≠ none →
        (dsi_panel_binned_bl_update cfg lp st br bl_lvl).1.bl_actual =
          2 ^ 32 - 1 ∧
        (dsi_panel_binned_bl_update cfg lp st br bl_lvl).2.1.last_lp_mode =
          none ∧
        (bl_lvl ≤ 65535 →
          hasDcsWrite
            (dsi_panel_binned_bl_update cfg lp st br bl_lvl).2.2.1 = true)) ∧
    (is_lp_mode st = false → lp.last_lp_mode = none →
        dsi_panel_binned_bl_update cfg lp st br bl_lvl =
          (cfg, lp, ((dsi_backlight_update_dcs cfg bl_lvl).2.map
              DsiEvent.dcsBrightness).toList,
            (dsi_backlight_update_dcs cfg bl_lvl).1)) := by
  refine ⟨?_, ?_, ?_, ?_⟩
  · intro i h
    obtain ⟨h1, h2, h3, h4⟩ := binned_find_loop_some lp.modes (toU32 br) 0 i h
    refine ⟨by omega, by simpa using h3, ?_⟩
    intro k hk
    have := h4 k (by omega)
    simpa using this
  · intro hlp i h
    unfold dsi_panel_binned_bl_update
    rw [if_pos (by simp [hlp]), h]
    by_cases hlast : some i ≠ lp.last_lp_mode
    · simp [hlast, hasDcsWrite]
    · push_neg at hlast
      simp [← hlast, hasDcsWrite]
  · intro hlp hlast
    unfold dsi_panel_binned_bl_update
    rw [if_neg (by simp [hlp])]
    simp only []
    rw [if_pos (by simpa using Ne.symm hlast)]
    refine ⟨rfl, rfl, ?_⟩
    intro hle
    unfold dsi_backlight_update_dcs
    rw [if_neg (by omega),
      if_neg (by show ¬(bl_lvl = 2 ^ 32 - 1); omega)]
    by_cases hsz : 2 ^ cfg.high_byte_offset ≤ cfg.bl_max_level
    · rw [if_pos hsz]; rfl
    · rw [if_neg hsz]; rfl
  · intro hlp hlast
    unfold dsi_panel_binned_bl_update
    rw [if_neg (by simp [hlp])]
    simp only []
    rw [if_neg (by simp [hlast])]
    simp

/-- C5 (witness): spec scenario 4 — LP1 with brightness 50 and bins at
thresholds 30/60/120 selects the second bin (index 1) and performs no DCS
brightness write. -/
theorem c5_binned_lp_witness :
    (dsi_panel_binned_bl_update
      { bl_min_level := 1, bl_max_level := 255, brightness_max_level := 255,
        bl_scale := 1024, bl_scale_sv := 65535, lut := none, bl_actual := 7,
        high_byte_offset := 8, hbm := none, bl_notifier := none,
        allow_bl_update := true, bl_update_pending := false,
        last_state := ⟨false, false, false, false⟩ }
      ⟨[⟨30⟩, ⟨60⟩, ⟨120⟩], none⟩ ⟨false, false, true, false⟩ 50 77).2.2.2 =
      0 ∧
    hasDcsWrite (dsi_panel_binned_bl_update
      { bl_min_level := 1, bl_max_level := 255, brightness_max_level := 255,
        bl_scale := 1024, bl_scale_sv := 65535, lut := none, bl_actual := 7,
        high_byte_offset := 8, hbm := none, bl_notifier := none,
        allow_bl_update := true, bl_update_pending := false,
        last_state := ⟨false, false, false, false⟩ }
      ⟨[⟨30⟩, ⟨60⟩, ⟨120⟩], none⟩ ⟨false, false, true, false⟩ 50 77).2.2.1 =
      false ∧
    (dsi_panel_binned_bl_update
      { bl_min_level := 1, bl_max_level := 255, brightness_max_level := 255,
        bl_scale := 1024, bl_scale_sv := 65535, lut := none, bl_actual := 7,
        high_byte_offset := 8, hbm := none, bl_notifier := none,
        allow_bl_update := true, bl_update_pending := false,
        last_state := ⟨false, false, false, false⟩ }
      ⟨[⟨30⟩, ⟨60⟩, ⟨120⟩], none⟩ ⟨false, false, true, false⟩ 50
      77).2.1.last_lp_mode = some 1 ∧
    (dsi_panel_binned_bl_update
      { bl_min_level := 1, bl_max_level := 255, brightness_max_level := 255,
        bl_scale := 1024, bl_scale_sv := 65535, lut := none, bl_actual := 7,
        high_byte_offset := 8, hbm := none, bl_notifier := none,
        allow_bl_update := true, bl_update_pending := false,
        last_state := ⟨false, false, false, false⟩ }
      ⟨[⟨30⟩, ⟨60⟩, ⟨120⟩], none⟩ ⟨false, false, true, false⟩ 50
      77).1.bl_actual = 7 :=
  (c5_binned_lp_update _ ⟨[⟨30⟩, ⟨60⟩, ⟨120⟩], none⟩
    ⟨false, false, true, false⟩ 50 77).2.1 rfl 1 (by decide)

/-- The level computed by the HBM calculation depends only on the ranges and
the brightness — except that a failed range lookup echoes the caller's
`bl_actual` back. -/
theorem calculate_hbm_value_cases (hA hB : HbmData) (aA aB t : ℕ)
    (hr : hB.ranges = hA.ranges) :
    (dsi_backlight_calculate_hbm hB aB t).2.2 =
      (dsi_backlight_calculate_hbm hA aA t).2.2 ∨
    (dsi_backlight_calculate_hbm hB aB t).2.2 = aB := by
  unfold dsi_backlight_calculate_hbm dsi_backlight_hbm_find_range
  rw [hr]
  by_cases ht : t ≠ 0
  · rw [if_pos ht]
    cases hf : find_range_loop hA.ranges t 0 with
    | none => right; rfl
    | some j => left; rfl
  · rw [if_neg ht]
    left
    rfl

/-- The brightness calculation never changes the set of HBM ranges. -/
theorem calculate_map_ranges (cfg : BLConfig) (hm : HbmMode) (b : ℤ) :
    Option.map HbmData.ranges (dsi_backlight_calculate cfg hm b).1.hbm =
      Option.map HbmData.ranges cfg.hbm := by
  unfold dsi_backlight_calculate
  by_cases h0 : b ≤ 0
  · rw [if_pos h0]
  · rw [if_neg h0]
    by_cases hmo : hm ≠ HbmMode.off
    · rw [if_pos hmo]
      cases hh : cfg.hbm with
      | none => rw [hh]
      | some h =>
          show Option.map HbmData.ranges
            (some (dsi_backlight_calculate_hbm h cfg.bl_actual _).1) = _
          rw [Option.map_some', Option.map_some', calculate_hbm_ranges]
    · rw [if_neg hmo]

/-- The computed level is stable across the config mutations
`update_status` performs between two calls (current HBM range, pending
flag, notifier range, `bl_actual`, `last_state`): with the mapping inputs
unchanged, the second computation either reproduces the first level or
echoes the new `bl_actual`. -/
theorem calculate_value_cases (cfg cfgB : BLConfig) (hm : HbmMode) (b : ℤ)
    (h1 : cfgB.bl_scale = cfg.bl_scale)
    (h2 : cfgB.bl_scale_sv = cfg.bl_scale_sv)
    (h3 : cfgB.lut = cfg.lut)
    (h4 : cfgB.brightness_max_level = cfg.brightness_max_level)
    (h5 : cfgB.bl_min_level = cfg.bl_min_level)
    (h6 : cfgB.bl_max_level = cfg.bl_max_level)
    (h7 : Option.map HbmData.ranges cfgB.hbm =
      Option.map HbmData.ranges cfg.hbm) :
    (dsi_backlight_calculate cfgB hm b).2.2 =
      (dsi_backlight_calculate cfg hm b).2.2 ∨
    (dsi_backlight_calculate cfgB hm b).2.2 = cfgB.bl_actual := by
  unfold dsi_backlight_calculate
  by_cases h0 : b ≤ 0
  · rw [if_pos h0, if_pos h0]
    left
    rfl
  · rw [if_neg h0, if_neg h0]
    simp only []
    rw [h1, h2]
    by_cases hmo : hm ≠ HbmMode.off
    · rw [if_pos hmo, if_pos hmo]
      cases hB : cfgB.hbm with
      | none =>
          cases hA : cfg.hbm with
          | none => right; rfl
          | some hA2 => rw [hB, hA] at h7; simp at h7
      | some hB2 =>
          cases hA : cfg.hbm with
          | none => rw [hB, hA] at h7; simp at h7
          | some hA2 =>
              rw [hB, hA] at h7
              rw [Option.map_some', Option.map_some',
                Option.some_inj] at h7
              rcases calculate_hbm_value_cases hA2 hB2 cfg.bl_actual
                  cfgB.bl_actual
                  (mult_frac (mult_frac b.toNat cfg.bl_scale
                    MAX_BL_SCALE_LEVEL) cfg.bl_scale_sv
                    MAX_SV_BL_SCALE_LEVEL) h7 with hc | hc
              · left; exact hc
              · right; exact hc
    · rw [if_neg hmo, if_neg hmo]
      left
      unfold dsi_backlight_calculate_normal
      rw [h3, h4, h5, h6]

/-- The bound writer either leaves the config untouched or (binned-LP
leaving LP) invalidates `bl_actual` to `(u32)-1`. -/
theorem bl_update_bl_cfg_shape (cfg : BLConfig) (m : BlMethod) (st : BLState)
    (br : ℤ) (lvl : ℕ) :
    (bl_update_bl cfg m st br lvl).1 = cfg ∨
    (bl_update_bl cfg m st br lvl).1 = { cfg with bl_actual := 2 ^ 32 - 1 } := by
  cases m with
  | unset => left; rfl
  | dcs => left; rfl
  | binned lp =>
      show (dsi_panel_binned_bl_update cfg lp st br lvl).1 = cfg ∨
        (dsi_panel_binned_bl_update cfg lp st br lvl).1 =
          { cfg with bl_actual := 2 ^ 32 - 1 }
      unfold dsi_panel_binned_bl_update
      by_cases hlp : is_lp_mode st = true
      · rw [if_pos hlp]
        cases hfind : binned_find_loop lp.modes (toU32 br) 0 with
        | none =>
            simp only []
            by_cases hlast : (none : Option ℕ) ≠ lp.last_lp_mode
            · rw [if_pos hlast]
              right
              rfl
            · rw [if_neg hlast]
              left
              rfl
        | some i =>
            simp only []
            by_cases hlast : some i ≠ lp.last_lp_mode
            · rw [if_pos hlast]
              left
              rfl
            · rw [if_neg hlast]
              left
              rfl
      · rw [if_neg hlp]
        simp only []
        by_cases hlast : (none : Option ℕ) ≠ lp.last_lp_mode
        · rw [if_pos hlast]
          right
          rfl
        · rw [if_neg hlast]
          left
          rfl

/-- `update_status` never touches the device properties, the HBM mode or
the initialization flag. -/
theorem update_status_dev_fields (d : BLDevice) :
    (dsi_backlight_update_status d).1.props = d.props ∧
    (dsi_backlight_update_status d).1.hbm_mode = d.hbm_mode ∧
    (dsi_backlight_update_status d).1.initialized = d.initialized := by
  unfold dsi_backlight_update_status
  simp only []
  split
  · exact ⟨rfl, rfl, rfl⟩
  · split
    · exact ⟨rfl, rfl, rfl⟩
    · split
      · split
        · exact ⟨rfl, rfl, rfl⟩
        · exact ⟨rfl, rfl, rfl⟩
      · exact ⟨rfl, rfl, rfl⟩

/-- The notifier step only ever rewrites the `bl_notifier` field. -/
theorem bl_notifier_step_shape (cfg : BLConfig) (st : BLState) (hm : HbmMode)
    (b : ℤ) :
    ∃ nf, bl_notifier_step cfg st hm b = { cfg with bl_notifier := nf } := by
  unfold bl_notifier_step
  split
  · cases hnf : cfg.bl_notifier with
    | none =>
        refine ⟨none, ?_⟩
        show cfg = { cfg with bl_notifier := none }
        rw [← hnf]
    | some nf =>
        simp only []
        cases hfind : bl_notifier_find_loop nf.ranges (toU32 b) 0 with
        | none =>
            refine ⟨some nf, ?_⟩
            show cfg = { cfg with bl_notifier := some nf }
            rw [← hnf]
        | some t =>
            by_cases hc : nf.cur_range ≠ t
            · refine ⟨some { nf with cur_range := t }, ?_⟩
              show (if nf.cur_range ≠ t then
                  { cfg with bl_notifier := some { nf with cur_range := t } }
                else cfg) =
                { cfg with bl_notifier := some { nf with cur_range := t } }
              rw [if_pos hc]
            · refine ⟨some nf, ?_⟩
              show (if nf.cur_range ≠ t then
                  { cfg with bl_notifier := some { nf with cur_range := t } }
                else cfg) =
                { cfg with bl_notifier := some nf }
              rw [if_neg hc, ← hnf]
  · refine ⟨cfg.bl_notifier, ?_⟩
    show cfg = { cfg with bl_notifier := cfg.bl_notifier }
    rfl

/-- C4: `update_status` is idempotent on stale values — when the computed
level equals `bl_actual` and the state equals `last_state` it performs no
DCS brightness write and leaves `bl_actual`, `last_state` and the pending
flag untouched; when updates are gated (`allow_bl_update` false while value
or state changed) it only marks `bl_update_pending`; and after a first call
that went through the writer successfully, a second call with identical
inputs hits the stale exit and performs no DCS brightness write. -/
theorem c4_update_status_idempotent (d : BLDevice) :
    ((dsi_backlight_calculate d.cfg d.hbm_mode
        (effective_brightness d.props)).2.2 = d.cfg.bl_actual →
      d.cfg.last_state = d.props.state →
        hasDcsWrite (dsi_backlight_update_status d).2 = false ∧
        (dsi_backlight_update_status d).1.cfg.bl_actual = d.cfg.bl_actual ∧
        (dsi_backlight_update_status d).1.cfg.last_state =
          d.cfg.last_state ∧
        (dsi_backlight_update_status d).1.cfg.bl_update_pending =
          d.cfg.bl_update_pending) ∧
    (¬((dsi_backlight_calculate d.cfg d.hbm_mode
        (effective_brightness d.props)).2.2 = d.cfg.bl_actual ∧
        d.cfg.last_state = d.props.state) →
      d.cfg.allow_bl_update = false →
        (dsi_backlight_update_status d).1.cfg.bl_update_pending = true ∧
        hasDcsWrite (dsi_backlight_update_status d).2 = false ∧
        (dsi_backlight_update_status d).1.cfg.bl_actual = d.cfg.bl_actual ∧
        (dsi_backlight_update_status d).1.cfg.last_state =
          d.cfg.last_state) ∧
    (¬((dsi_backlight_calculate d.cfg d.hbm_mode
        (effective_brightness d.props)).2.2 = d.cfg.bl_actual ∧
        d.cfg.last_state = d.props.state) →
      d.cfg.allow_bl_update = true →
      d.initialized = true →
      d.method ≠ BlMethod.unset →
      (bl_update_bl (dsi_backlight_calculate d.cfg d.hbm_mode
          (effective_brightness d.props)).1 d.method d.props.state
          d.props.brightness
          (dsi_backlight_calculate d.cfg d.hbm_mode
            (effective_brightness d.props)).2.2).2.2.2 = 0 →
        hasDcsWrite (dsi_backlight_update_status
          (dsi_backlight_update_status d).1).2 = false) := by
  obtain ⟨hh, hshape⟩ :=
    calculate_cfg_shape d.cfg d.hbm_mode (effective_brightness d.props)
  refine ⟨?_, ?_, ?_⟩
  · -- stale no-op
    intro hval hstate
    have hcond : (dsi_backlight_calculate d.cfg d.hbm_mode
        (effective_brightness d.props)).2.2 =
        (dsi_backlight_calculate d.cfg d.hbm_mode
          (effective_brightness d.props)).1.bl_actual ∧
        d.cfg.last_state = d.props.state := by
      refine ⟨?_, hstate⟩
      rw [hshape]
      exact hval
    unfold dsi_backlight_update_status
    simp only []
    rw [if_pos hcond]
    exact ⟨calculate_no_dcs _ _ _, by rw [hshape], by rw [hshape],
      by rw [hshape]⟩
  · -- gated update
    intro hns hallow
    have hcond : ¬((dsi_backlight_calculate d.cfg d.hbm_mode
        (effective_brightness d.props)).2.2 =
        (dsi_backlight_calculate d.cfg d.hbm_mode
          (effective_brightness d.props)).1.bl_actual ∧
        d.cfg.last_state = d.props.state) := by
      intro hc
      apply hns
      refine ⟨?_, hc.2⟩
      have h1 := hc.1
      rw [hshape] at h1
      exact h1
    have hgate : (!(dsi_backlight_calculate d.cfg d.hbm_mode
        (effective_brightness d.props)).1.allow_bl_update) = true := by
      rw [hshape]
      show (!d.cfg.allow_bl_update) = true
      rw [hallow]
      rfl
    unfold dsi_backlight_update_status
    simp only []
    rw [if_neg hcond, if_pos hgate]
    exact ⟨rfl, calculate_no_dcs _ _ _, by rw [hshape], by rw [hshape]⟩
  · -- second call after a successful write
    intro hns hallow hinit hmeth hrc
    have hcond : ¬((dsi_backlight_calculate d.cfg d.hbm_mode
        (effective_brightness d.props)).2.2 =
        (dsi_backlight_calculate d.cfg d.hbm_mode
          (effective_brightness d.props)).1.bl_actual ∧
        d.cfg.last_state = d.props.state) := by
      intro hc
      apply hns
      refine ⟨?_, hc.2⟩
      have h1 := hc.1
      rw [hshape] at h1
      exact h1
    have hgate : ¬((!(dsi_backlight_calculate d.cfg d.hbm_mode
        (effective_brightness d.props)).1.allow_bl_update) = true) := by
      rw [hshape]
      show ¬((!d.cfg.allow_bl_update) = true)
      rw [hallow]
      simp
    have hinit2 : (d.initialized &&
        !(decide (d.method = BlMethod.unset))) = true := by
      rw [hinit]
      simp [hmeth]
    have hrc2 : ¬((bl_update_bl (dsi_backlight_calculate d.cfg d.hbm_mode
        (effective_brightness d.props)).1 d.method d.props.state
        d.props.brightness
        (dsi_backlight_calculate d.cfg d.hbm_mode
          (effective_brightness d.props)).2.2).2.2.2 ≠ 0) := by
      rw [hrc]
      simp
    obtain ⟨nf, hnf⟩ := bl_notifier_step_shape
      { (bl_update_bl (dsi_backlight_calculate d.cfg d.hbm_mode
          (effective_brightness d.props)).1 d.method d.props.state
          d.props.brightness
          (dsi_backlight_calculate d.cfg d.hbm_mode
            (effective_brightness d.props)).2.2).1 with
        bl_update_pending := false }
      d.props.state d.hbm_mode (effective_brightness d.props)
    -- the first call, evaluated on the successful-write branch
    have hfirst : dsi_backlight_update_status d =
        ({ d with
            cfg := { (bl_notifier_step
              { (bl_update_bl (dsi_backlight_calculate d.cfg d.hbm_mode
                  (effective_brightness d.props)).1 d.method d.props.state
                  d.props.brightness
                  (dsi_backlight_calculate d.cfg d.hbm_mode
                    (effective_brightness d.props)).2.2).1 with
                bl_update_pending := false }
              d.props.state d.hbm_mode (effective_brightness d.props)) with
              bl_actual := (dsi_backlight_calculate d.cfg d.hbm_mode
                (effective_brightness d.props)).2.2,
              last_state := d.props.state },
            method := (bl_update_bl (dsi_backlight_calculate d.cfg
              d.hbm_mode (effective_brightness d.props)).1 d.method
              d.props.state d.props.brightness
              (dsi_backlight_calculate d.cfg d.hbm_mode
                (effective_brightness d.props)).2.2).2.1 },
         (dsi_backlight_calculate d.cfg d.hbm_mode
           (effective_brightness d.props)).2.1 ++
         (bl_update_bl (dsi_backlight_calculate d.cfg d.hbm_mode
           (effective_brightness d.props)).1 d.method d.props.state
           d.props.brightness
           (dsi_backlight_calculate d.cfg d.hbm_mode
             (effective_brightness d.props)).2.2).2.2.1) := by
      unfold dsi_backlight_update_status
      simp only []
      rw [if_neg hcond, if_neg hgate, if_pos hinit2, if_neg hrc2]
    -- the new config seen by the second call
    have hd1cfg : (dsi_backlight_update_status d).1.cfg =
        { d.cfg with
          hbm := hh,
          bl_actual := (dsi_backlight_calculate d.cfg d.hbm_mode
            (effective_brightness d.props)).2.2,
          bl_update_pending := false,
          last_state := d.props.state,
          bl_notifier := nf } := by
      rcases bl_update_bl_cfg_shape (dsi_backlight_calculate d.cfg d.hbm_mode
          (effective_brightness d.props)).1 d.method d.props.state
          d.props.brightness
          (dsi_backlight_calculate d.cfg d.hbm_mode
            (effective_brightness d.props)).2.2 with hw | hw
      · rw [hfirst, hnf, hw, hshape]
      · rw [hfirst, hnf, hw, hshape]
    have hranges : Option.map HbmData.ranges hh =
        Option.map HbmData.ranges d.cfg.hbm := by
      have hm := calculate_map_ranges d.cfg d.hbm_mode
        (effective_brightness d.props)
      rw [hshape] at hm
      exact hm
    have hval2 : (dsi_backlight_calculate
        (dsi_backlight_update_status d).1.cfg d.hbm_mode
        (effective_brightness d.props)).2.2 =
        (dsi_backlight_calculate d.cfg d.hbm_mode
          (effective_brightness d.props)).2.2 := by
      rw [hd1cfg]
      rcases calculate_value_cases d.cfg
        { d.cfg with
          hbm := hh,
          bl_actual := (dsi_backlight_calculate d.cfg d.hbm_mode
            (effective_brightness d.props)).2.2,
          bl_update_pending := false,
          last_state := d.props.state,
          bl_notifier := nf }
        d.hbm_mode (effective_brightness d.props)
        rfl rfl rfl rfl rfl rfl hranges with hv | hv
      · exact hv
      · exact hv
    obtain ⟨hprops, hhm, _⟩ := update_status_dev_fields d
    obtain ⟨hh2, hshape2⟩ := calculate_cfg_shape
      (dsi_backlight_update_status d).1.cfg
      (dsi_backlight_update_status d).1.hbm_mode
      (effective_brightness (dsi_backlight_update_status d).1.props)
    have hcond2 : (dsi_backlight_calculate
        (dsi_backlight_update_status d).1.cfg
        (dsi_backlight_update_status d).1.hbm_mode
        (effective_brightness (dsi_backlight_update_status d).1.props)).2.2 =
        (dsi_backlight_calculate (dsi_backlight_update_status d).1.cfg
          (dsi_backlight_update_status d).1.hbm_mode
          (effective_brightness
            (dsi_backlight_update_status d).1.props)).1.bl_actual ∧
        (dsi_backlight_update_status d).1.cfg.last_state =
          (dsi_backlight_update_status d).1.props.state := by
      constructor
      · rw [hshape2, hprops, hhm, hval2, hd1cfg]
      · rw [hprops, hd1cfg]
    -- second call exits on the stale check
    set d1 : BLDevice := (dsi_backlight_update_status d).1 with hd1v
    have hsecond : (dsi_backlight_update_status d1).2 =
        (dsi_backlight_calculate d1.cfg d1.hbm_mode
          (effective_brightness d1.props)).2.1 := by
      conv_lhs => unfold dsi_backlight_update_status
      simp only []
      rw [if_pos hcond2]
    rw [hsecond]
    exact calculate_no_dcs _ _ _

/-- C4 (witness): the theorem applied at three concrete DCS devices — one
stale (level 128 already written), one gated, and one taking a successful
write followed by a second identical call. -/
theorem c4_update_status_witness :
    (hasDcsWrite (dsi_backlight_update_status ⟨{ bl_min_level := 1, bl_max_level := 255, brightness_max_level := 255, bl_scale := 1024, bl_scale_sv := 65535, lut := none, bl_actual := 128, high_byte_offset := 8, hbm := none, bl_notifier := none, allow_bl_update := true, bl_update_pending := false, last_state := ⟨false, false, false, false⟩ }, ⟨128, true, ⟨false, false, false, false⟩⟩, HbmMode.off, true, BlMethod.dcs⟩).2 = false ∧
     (dsi_backlight_update_status ⟨{ bl_min_level := 1, bl_max_level := 255, brightness_max_level := 255, bl_scale := 1024, bl_scale_sv := 65535, lut := none, bl_actual := 128, high_byte_offset := 8, hbm := none, bl_notifier := none, allow_bl_update := true, bl_update_pending := false, last_state := ⟨false, false, false, false⟩ }, ⟨128, true, ⟨false, false, false, false⟩⟩, HbmMode.off, true, BlMethod.dcs⟩).1.cfg.bl_actual = 128 ∧
     (dsi_backlight_update_status ⟨{ bl_min_level := 1, bl_max_level := 255, brightness_max_level := 255, bl_scale := 1024, bl_scale_sv := 65535, lut := none, bl_actual := 128, high_byte_offset := 8, hbm := none, bl_notifier := none, allow_bl_update := true, bl_update_pending := false, last_state := ⟨false, false, false, false⟩ }, ⟨128, true, ⟨false, false, false, false⟩⟩, HbmMode.off, true, BlMethod.dcs⟩).1.cfg.last_state = ⟨false, false, false, false⟩ ∧
     (dsi_backlight_update_status ⟨{ bl_min_level := 1, bl_max_level := 255, brightness_max_level := 255, bl_scale := 1024, bl_scale_sv := 65535, lut := none, bl_actual := 128, high_byte_offset := 8, hbm := none, bl_notifier := none, allow_bl_update := true, bl_update_pending := false, last_state := ⟨false, false, false, false⟩ }, ⟨128, true, ⟨false, false, false, false⟩⟩, HbmMode.off, true, BlMethod.dcs⟩).1.cfg.bl_update_pending = false) ∧
    ((dsi_backlight_update_status ⟨{ bl_min_level := 1, bl_max_level := 255, brightness_max_level := 255, bl_scale := 1024, bl_scale_sv := 65535, lut := none, bl_actual := 0, high_byte_offset := 8, hbm := none, bl_notifier := none, allow_bl_update := false, bl_update_pending := false, last_state := ⟨false, false, false, false⟩ }, ⟨128, true, ⟨false, false, false, false⟩⟩, HbmMode.off, true, BlMethod.dcs⟩).1.cfg.bl_update_pending = true ∧
     hasDcsWrite (dsi_backlight_update_status ⟨{ bl_min_level := 1, bl_max_level := 255, brightness_max_level := 255, bl_scale := 1024, bl_scale_sv := 65535, lut := none, bl_actual := 0, high_byte_offset := 8, hbm := none, bl_notifier := none, allow_bl_update := false, bl_update_pending := false, last_state := ⟨false, false, false, false⟩ }, ⟨128, true, ⟨false, false, false, false⟩⟩, HbmMode.off, true, BlMethod.dcs⟩).2 = false ∧
     (dsi_backlight_update_status ⟨{ bl_min_level := 1, bl_max_level := 255, brightness_max_level := 255, bl_scale := 1024, bl_scale_sv := 65535, lut := none, bl_actual := 0, high_byte_offset := 8, hbm := none, bl_notifier := none, allow_bl_update := false, bl_update_pending := false, last_state := ⟨false, false, false, false⟩ }, ⟨128, true, ⟨false, false, false, false⟩⟩, HbmMode.off, true, BlMethod.dcs⟩).1.cfg.bl_actual = 0 ∧
     (dsi_backlight_update_status ⟨{ bl_min_level := 1, bl_max_level := 255, brightness_max_level := 255, bl_scale := 1024, bl_scale_sv := 65535, lut := none, bl_actual := 0, high_byte_offset := 8, hbm := none, bl_notifier := none, allow_bl_update := false, bl_update_pending := false, last_state := ⟨false, false, false, false⟩ }, ⟨128, true, ⟨false, false, false, false⟩⟩, HbmMode.off, true, BlMethod.dcs⟩).1.cfg.last_state = ⟨false, false, false, false⟩) ∧
    hasDcsWrite (dsi_backlight_update_status (dsi_backlight_update_status ⟨{ bl_min_level := 1, bl_max_level := 255, brightness_max_level := 255, bl_scale := 1024, bl_scale_sv := 65535, lut := none, bl_actual := 0, high_byte_offset := 8, hbm := none, bl_notifier := none, allow_bl_update := true, bl_update_pending := false, last_state := ⟨false, false, false, false⟩ }, ⟨128, true, ⟨false, false, false, false⟩⟩, HbmMode.off, true, BlMethod.dcs⟩).1).2 = false :=
  ⟨(c4_update_status_idempotent ⟨{ bl_min_level := 1, bl_max_level := 255, brightness_max_level := 255, bl_scale := 1024, bl_scale_sv := 65535, lut := none, bl_actual := 128, high_byte_offset := 8, hbm := none, bl_notifier := none, allow_bl_update := true, bl_update_pending := false, last_state := ⟨false, false, false, false⟩ }, ⟨128, true, ⟨false, false, false, false⟩⟩, HbmMode.off, true, BlMethod.dcs⟩).1 (by decide) (by decide),
   (c4_update_status_idempotent ⟨{ bl_min_level := 1, bl_max_level := 255, brightness_max_level := 255, bl_scale := 1024, bl_scale_sv := 65535, lut := none, bl_actual := 0, high_byte_offset := 8, hbm := none, bl_notifier := none, allow_bl_update := false, bl_update_pending := false, last_state := ⟨false, false, false, false⟩ }, ⟨128, true, ⟨false, false, false, false⟩⟩, HbmMode.off, true, BlMethod.dcs⟩).2.1 (by decide) (by decide),
   (c4_update_status_idempotent ⟨{ bl_min_level := 1, bl_max_level := 255, brightness_max_level := 255, bl_scale := 1024, bl_scale_sv := 65535, lut := none, bl_actual := 0, high_byte_offset := 8, hbm := none, bl_notifier := none, allow_bl_update := true, bl_update_pending := false, last_state := ⟨false, false, false, false⟩ }, ⟨128, true, ⟨false, false, false, false⟩⟩, HbmMode.off, true, BlMethod.dcs⟩).2.2 (by decide) (by decide) (by decide) (by decide) (by decide)⟩
